import Mathlib

set_option maxRecDepth 8192

/-!
Shallow embedding of the `elliotchance/jsonrpc` Go library.

JSON text encoding/decoding is an external capability of the library, so a
raw payload is embedded as `Option Json`: `none` stands for a byte sequence
that is not valid JSON, `some j` for bytes that decode to the generic JSON
value `j`.  `json.Unmarshal` into `[]interface\x7b\x7d` succeeds exactly on
arrays and `null` (Go leaves the slice nil for `null`), and into
`map[string]interface\x7b\x7d` exactly on objects and `null`; both behaviours
are modelled below.  Go `interface\x7b\x7d` values (ids, params, results,
state values) are embedded as `Json`, with `Json.null` for the nil interface.

The `uint64` statistics counters are embedded as `Nat` with explicit wrapping
at `2 ^ 64` (`inc64` / `dec64`), matching Go unsigned overflow.
-/

namespace Jsonrpc

/-- Generic JSON value (Go `interface\x7b\x7d` after `json.Unmarshal`).
JSON numbers are embedded as integers, which is enough for every claim. -/
inductive Json where
  | null : Json
  | bool (b : Bool) : Json
  | num (n : Int) : Json
  | str (s : String) : Json
  | arr (elems : List Json) : Json
  | obj (fields : List (String × Json)) : Json

/-- Go `v != nil` test on an embedded `interface\x7b\x7d` value. -/
def Json.isNull : Json → Bool
  | Json.null => true
  | _ => false

/-- Go map indexing `m[key]` over the fields of a decoded JSON object:
a missing key yields the nil interface (`Json.null`); for duplicate keys
Go's decoder keeps the last value. -/
def lookupField (fields : List (String × Json)) (key : String) : Json :=
  fields.foldl (fun acc p => if p.1 = key then p.2 else acc) Json.null

-- Error taxonomy (response.go constants).

/-- Not declared in the JSON-RPC spec: used with `ErrorCode` to test that
there was no error. -/
def Success : Int := 0

/-- Invalid JSON was received by the server. -/
def ParseError : Int := -32700

/-- The JSON sent is not a valid Request object. -/
def InvalidRequest : Int := -32600

/-- The method does not exist or is not available. -/
def MethodNotFound : Int := -32601

/-- Invalid method parameter(s). -/
def InvalidParams : Int := -32602

/-- Internal JSON-RPC error. -/
def InternalError : Int := -32603

/-- Upper bound of the implementation-defined server-error band. -/
def ServerError : Int := -32000

/-- Lower bound of the implementation-defined server-error band. -/
def ServerErrorMin : Int := -32099

/-- Go `ErrorMessageForCode`: the generic error message for an error code. -/
def ErrorMessageForCode (code : Int) : String :=
  if code = ParseError then "Parse error"
  else if code = InvalidRequest then "Invalid request"
  else if code = MethodNotFound then "Method not found"
  else if code = InvalidParams then "Invalid params"
  else if code = InternalError then "Internal error"
  else if ServerErrorMin ≤ code ∧ code ≤ ServerError then "Server error"
  else "Unknown error"

-- Response model (response.go).

/-- The `error` member of a response: code plus human-readable message. -/
structure ErrorValue where
  code : Int
  message : String

/-- A JSON-RPC response object.  `result` is `Json.null` when unset
(Go nil interface, omitted by `omitempty`); `error` is `none` when unset. -/
structure Response where
  version : String
  id : Json
  result : Json
  error : Option ErrorValue

/-- Go `Response.ErrorCode()`: the error code, or the `Success` sentinel when
no error is set. -/
def Response.ErrorCode (response : Response) : Int :=
  match response.error with
  | none => Success
  | some e => e.code

/-- Go `Response.ErrorMessage()`: the error message, or `""` when no error is
set. -/
def Response.ErrorMessage (response : Response) : String :=
  match response.error with
  | none => ""
  | some e => e.message

/-- Go `NewSuccessResponse(id, result)`. -/
def NewSuccessResponse (id : Json) (result : Json) : Response :=
  { version := "2.0", id := id, result := result, error := none }

/-- Go `NewErrorResponse(id, code, message)`: an empty message is replaced by
the taxonomy message for the code. -/
def NewErrorResponse (id : Json) (code : Int) (message : String) : Response :=
  { version := "2.0"
    id := id
    result := Json.null
    error := some { code := code
                    message := if message = "" then ErrorMessageForCode code
                               else message } }

/-- Go `NewServerErrorResponse(id, err)`: converts a generic error into a
`ServerError` response; `err.Error()` is embedded as the message string. -/
def NewServerErrorResponse (id : Json) (errMessage : String) : Response :=
  NewErrorResponse id ServerError errMessage

-- Request model (request.go).

/-- Go `State`: the per-call state bag, `map[string]interface\x7b\x7d`. -/
abbrev State := List (String × Json)

/-- A JSON-RPC request object.  `requestState` is `none` when the Go map is
nil (as for requests built by `NewRequestFromJSON`). -/
structure Request where
  RequestVersion : String
  RequestMethod : String
  RequestParams : Json
  RequestId : Json
  requestState : Option State

/-- Go `Request.Version()`. -/
def Request.Version (request : Request) : String :=
  request.RequestVersion

/-- Go `Request.Method()`. -/
def Request.Method (request : Request) : String :=
  request.RequestMethod

/-- Go `Request.Params()`. -/
def Request.Params (request : Request) : Json :=
  request.RequestParams

/-- Go `Request.Id()`. -/
def Request.Id (request : Request) : Json :=
  request.RequestId

/-- Go `Request.State(key)`: indexes the state bag; indexing a nil map or a
missing key yields the nil interface (`Json.null`). -/
def Request.State (request : Request) (key : String) : Json :=
  match request.requestState with
  | none => Json.null
  | some bag => lookupField bag key

/-- Go `request.NewSuccessResponse(result)` (Responder capability). -/
def Request.NewSuccessResponse (request : Request) (result : Json) : Response :=
  Jsonrpc.NewSuccessResponse request.Id result

/-- Go `request.NewErrorResponse(code, message)` (Responder capability). -/
def Request.NewErrorResponse (request : Request) (code : Int)
    (message : String) : Response :=
  Jsonrpc.NewErrorResponse request.Id code message

/-- Go `request.NewServerErrorResponse(err)` (Responder capability). -/
def Request.NewServerErrorResponse (request : Request)
    (errMessage : String) : Response :=
  Jsonrpc.NewServerErrorResponse request.Id errMessage

/-- Go `NewRequestResponderWithState(version, id, method, params, state)`. -/
def NewRequestResponderWithState (version : String) (id : Json)
    (method : String) (params : Json) (state : Option State) : Request :=
  { RequestVersion := version
    RequestId := id
    RequestMethod := method
    RequestParams := params
    requestState := state }

/-- Go `NewRequestResponder(version, id, method, params)`: same with an empty
(non-nil) state bag. -/
def NewRequestResponder (version : String) (id : Json) (method : String)
    (params : Json) : Request :=
  NewRequestResponderWithState version id method params (some [])

-- JSON decoding of payloads.

/-- Go `json.Unmarshal(data, &requestMap)` for `map[string]interface\x7b\x7d`:
succeeds on a JSON object (its fields) and on JSON `null` (a nil map, which
indexes like an empty one); fails on invalid JSON (`none`) and on any other
top-level JSON value. -/
def decodeMap : Option Json → Option (List (String × Json))
  | some (Json.obj fields) => some fields
  | some Json.null => some []
  | _ => none

/-- Go `json.Unmarshal(data, &batchRequest)` for `[]interface\x7b\x7d`:
succeeds on a JSON array (its elements) and on JSON `null` (a nil slice of
length zero); fails otherwise. -/
def decodeArray : Option Json → Option (List Json)
  | some (Json.arr elems) => some elems
  | some Json.null => some []
  | _ => none

/-- Go `newRequestResponderFromJSON(jsonRequest, isPartOfBatch, state)`:
returns `(request, id, errorCode, errorMessage)`.  On a decode failure the
code is `ParseError`, degraded to `InvalidRequest` inside a batch, with the
taxonomy message; the id is whatever could be salvaged from the
partially-decoded payload (here always nil, since Go's decoder leaves the
map nil on failure). -/
def newRequestResponderFromJSON (jsonRequest : Option Json)
    (isPartOfBatch : Bool) (state : Option State) :
    Option Request × Json × Int × String :=
  match decodeMap jsonRequest with
  | none =>
    let errCode := if isPartOfBatch then InvalidRequest else ParseError
    (none, Json.null, errCode, ErrorMessageForCode errCode)
  | some requestMap =>
    match lookupField requestMap "jsonrpc" with
    | Json.str version =>
      match lookupField requestMap "method" with
      | Json.str method =>
        (some (NewRequestResponderWithState version
                 (lookupField requestMap "id") method
                 (lookupField requestMap "params") state),
         lookupField requestMap "id", Success, "")
      | _ => (none, lookupField requestMap "id", InvalidRequest,
              "Method must be a string.")
    | _ => (none, lookupField requestMap "id", InvalidRequest,
            "Version (jsonrpc) must be a string.")

/-- Go `NewRequestFromJSON(data)`: returns `(request, error message)`; the Go
function returns a non-nil error exactly when the resolution produced a
non-empty error message, and threads a nil state bag. -/
def NewRequestFromJSON (data : Option Json) :
    Option Request × Option String :=
  match newRequestResponderFromJSON data false none with
  | (r, _, _, errMessage) =>
    if errMessage ≠ "" then (none, some errMessage) else (r, none)

-- Server model (server.go).

/-- Result of invoking a Go handler: it either returns a `Response` or
panics with some payload (the payload is recovered and discarded by the
dispatch engine). -/
inductive HandlerResult where
  | ok (response : Response) : HandlerResult
  | panicked (payload : String) : HandlerResult

/-- Go `RequestHandler`: a function able to respond to a server request. -/
def RequestHandler := Request → HandlerResult

/-- Modulus of the Go `uint64` statistics counters. -/
def UINT64MOD : Nat := 2 ^ 64

/-- Wrapping `uint64` increment. -/
def inc64 (c : Nat) : Nat := (c + 1) % UINT64MOD

/-- Wrapping `uint64` decrement (Go `c -= 1` / `atomic.AddUint64(&c, ^uint64(0))`). -/
def dec64 (c : Nat) : Nat := (c + (UINT64MOD - 1)) % UINT64MOD

/-- The `SimpleServer` struct: the handler registry plus the statistics
counters (`startTime` is wall-clock time, irrelevant to the claims). -/
structure SimpleServer where
  requestHandlers : List (String × RequestHandler)
  totalPayloads : Nat
  totalRequests : Nat
  totalSuccessResponses : Nat
  totalErrorResponses : Nat
  totalSuccessNotifications : Nat
  totalErrorNotifications : Nat
  currentActiveRequests : Nat

/-- Go map lookup in the handler registry (`server.requestHandlers[name]`):
nil when the method is unregistered; registration is last-write-wins. -/
def lookupHandler (handlers : List (String × RequestHandler))
    (methodName : String) : Option RequestHandler :=
  handlers.foldl (fun acc p => if p.1 = methodName then some p.2 else acc) none

/-- Go `NewSimpleServer()`. -/
def NewSimpleServer : SimpleServer :=
  { requestHandlers := []
    totalPayloads := 0
    totalRequests := 0
    totalSuccessResponses := 0
    totalErrorResponses := 0
    totalSuccessNotifications := 0
    totalErrorNotifications := 0
    currentActiveRequests := 0 }

/-- Go `SetHandler(methodName, handler)`: registers or replaces the handler
for a method. -/
def SetHandler (server : SimpleServer) (methodName : String)
    (handler : RequestHandler) : SimpleServer :=
  { server with requestHandlers := server.requestHandlers ++ [(methodName, handler)] }

/-- Go `GetHandler(methodName)`. -/
def GetHandler (server : SimpleServer) (methodName : String) :
    Option RequestHandler :=
  lookupHandler server.requestHandlers methodName

/-- Go `appendResponses(&responses, response)`: appends the response unless
its id is nil ("notifications do not receive results"). -/
def appendResponses (responses : List Response) (response : Response) :
    List Response :=
  if response.id.isNull then responses else responses ++ [response]

/-- The main body of `HandleRequest` up to the deferred function: validates
the version, looks up the handler, and invokes it.  A panic inside the
handler is recovered by the deferred guard, which replaces the response
with `request.NewErrorResponse(ServerError, "")`; the recovery is folded
into the invocation here since nothing else runs in between.  The
active-request gauge is incremented right before the handler and
decremented on every exit path (its own deferred decrement). -/
def handleRequestBody (server : SimpleServer) (request : Request) :
    SimpleServer × Response :=
  if request.Version ≠ "2.0" then
    (server, request.NewErrorResponse InvalidRequest "Version is not 2.0.")
  else
    match lookupHandler server.requestHandlers request.Method with
    | none => (server, request.NewErrorResponse MethodNotFound "")
    | some handler =>
      let server := { server with totalRequests := inc64 server.totalRequests }
      let server := { server with
        currentActiveRequests := inc64 server.currentActiveRequests }
      let response :=
        match handler request with
        | HandlerResult.ok r => r
        | HandlerResult.panicked _ =>
          request.NewErrorResponse ServerError ""
      let server := { server with
        currentActiveRequests := dec64 server.currentActiveRequests }
      (server, response)

/-- The tracking part of `HandleRequest`'s deferred function: classifies
the response into the four success/error × response/notification counters,
keyed on the request id captured at defer time. -/
def trackResponse (server : SimpleServer) (requestId : Json)
    (response : Response) : SimpleServer :=
  if requestId.isNull then
    if response.ErrorCode = Success then
      { server with
        totalSuccessNotifications := inc64 server.totalSuccessNotifications }
    else
      { server with
        totalErrorNotifications := inc64 server.totalErrorNotifications }
  else
    if response.ErrorCode = Success then
      { server with
        totalSuccessResponses := inc64 server.totalSuccessResponses }
    else
      { server with
        totalErrorResponses := inc64 server.totalErrorResponses }

/-- Go `HandleRequest(request)`: increments `totalPayloads`, runs the main
body (version check, handler lookup, invocation under the panic guard),
then the deferred function tracks the outcome and appends the response
unless its id is nil. -/
def HandleRequest (server : SimpleServer) (request : Request) :
    SimpleServer × List Response :=
  let server := { server with totalPayloads := inc64 server.totalPayloads }
  let (server, response) := handleRequestBody server request
  let server := trackResponse server request.Id response
  (server, appendResponses [] response)

/-- Go `handleSingle(jsonRequest, isPartOfBatch, state)`: resolves one request
payload.  A resolution error counts one error response and is appended via
`appendResponses`; otherwise `totalPayloads` is corrected down before
delegating to the public `HandleRequest` (which increments it again).
The `none` request branch under a `Success` code is unreachable (the
resolution always carries a request on success), mirroring Go's reliance
on that invariant. -/
def handleSingle (server : SimpleServer) (jsonRequest : Option Json)
    (isPartOfBatch : Bool) (state : Option State) :
    SimpleServer × List Response :=
  match newRequestResponderFromJSON jsonRequest isPartOfBatch state with
  | (request?, id, errCode, errMessage) =>
    if errCode ≠ Success then
      let server := { server with
        totalErrorResponses := inc64 server.totalErrorResponses }
      (server, appendResponses [] (NewErrorResponse id errCode errMessage))
    else
      let server := { server with totalPayloads := dec64 server.totalPayloads }
      match request? with
      | some request => HandleRequest server request
      | none => (server, [])

/-- The body of `HandleWithState`'s batch loop for one element: re-encode
the element (re-encoding a value that was just decoded cannot fail, so
Go's defensive marshal-error branch is unreachable), handle it as an
independent single request, and collect its results via
`appendResponses`. -/
def batchStep (state : Option State) (acc : SimpleServer × List Response)
    (probableRequest : Json) : SimpleServer × List Response :=
  let (server, results) := handleSingle acc.1 (some probableRequest) true state
  (server, results.foldl appendResponses acc.2)

/-- Go `HandleWithState(jsonRequest, state)`: increments `totalPayloads` once
for the whole payload, then sniffs the shape.  An array payload is a batch:
empty → the "Batch is empty." error; otherwise each element is handled by
`batchStep`.  A non-array payload is handled as a single request. -/
def HandleWithState (server : SimpleServer) (jsonRequest : Option Json)
    (state : Option State) : SimpleServer × List Response :=
  let server := { server with totalPayloads := inc64 server.totalPayloads }
  match decodeArray jsonRequest with
  | some batchRequest =>
    if batchRequest.isEmpty then
      let server := { server with
        totalErrorResponses := inc64 server.totalErrorResponses }
      (server, [NewErrorResponse Json.null InvalidRequest "Batch is empty."])
    else
      batchRequest.foldl (batchStep state) (server, ([] : List Response))
  | none =>
    let (server, results) := handleSingle server jsonRequest false state
    (server, results.foldl appendResponses [])

/-- Go `Handle(jsonRequest)`: `HandleWithState` with an empty (non-nil) state
bag. -/
def Handle (server : SimpleServer) (jsonRequest : Option Json) :
    SimpleServer × List Response :=
  HandleWithState server jsonRequest (some [])

-- Concrete handlers and a concrete server, exercising the theorems on
-- closed inputs (mirroring the repository's test handlers).

/-- A handler in the style of the README: answers through the request's
Responder capability with a fixed numeric result. -/
def subtractHandler : RequestHandler :=
  fun request => HandlerResult.ok (request.NewSuccessResponse (Json.num 19))

/-- A handler that reports a failure through the Responder capability. -/
def failingHandler : RequestHandler :=
  fun request =>
    HandlerResult.ok (request.NewErrorResponse InternalError "boom")

/-- A handler that panics (the test suite's `forcePanic`). -/
def panickingHandler : RequestHandler :=
  fun _ => HandlerResult.panicked "uh-oh!"

/-- A server with the three handlers above registered. -/
def witnessServer : SimpleServer :=
  SetHandler
    (SetHandler (SetHandler NewSimpleServer "subtract" subtractHandler)
      "failing" failingHandler)
    "panic" panickingHandler

/-- The decoded JSON object of
`{"jsonrpc":"2.0","method":"subtract","params":[42,23],"id":1}`. -/
def subtractCall : List (String × Json) :=
  [("jsonrpc", Json.str "2.0"), ("method", Json.str "subtract"),
   ("params", Json.arr [Json.num 42, Json.num 23]), ("id", Json.num 1)]

/-- The decoded JSON object of the notification
`{"jsonrpc":"2.0","method":"failing","params":[7]}`. -/
def failingNotification : List (String × Json) :=
  [("jsonrpc", Json.str "2.0"), ("method", Json.str "failing"),
   ("params", Json.arr [Json.num 7])]

-- Helper lemmas about the wrapping counters.

theorem inc64_eq {c : Nat} (h : c + 1 < UINT64MOD) : inc64 c = c + 1 := by
  simp only [inc64]
  exact Nat.mod_eq_of_lt h

theorem inc64_lt (c : Nat) : inc64 c < UINT64MOD := by
  simp only [inc64, UINT64MOD]
  omega

theorem dec64_inc64 {c : Nat} (h : c < UINT64MOD) : dec64 (inc64 c) = c := by
  simp only [inc64, dec64, UINT64MOD] at *
  omega

theorem inc64_dec64 {c : Nat} (h : c < UINT64MOD) : inc64 (dec64 c) = c := by
  simp only [inc64, dec64, UINT64MOD] at *
  omega

-- Framing lemmas: which counters each stage leaves untouched.

theorem handleRequestBody_totalPayloads (server : SimpleServer)
    (request : Request) :
    ((handleRequestBody server request).1).totalPayloads
      = server.totalPayloads := by
  unfold handleRequestBody
  repeat' split
  all_goals rfl

theorem handleRequestBody_requestHandlers (server : SimpleServer)
    (request : Request) :
    ((handleRequestBody server request).1).requestHandlers
      = server.requestHandlers := by
  unfold handleRequestBody
  repeat' split
  all_goals rfl

theorem trackResponse_totalPayloads (server : SimpleServer) (requestId : Json)
    (response : Response) :
    (trackResponse server requestId response).totalPayloads
      = server.totalPayloads := by
  unfold trackResponse
  repeat' split
  all_goals rfl

theorem trackResponse_totalRequests (server : SimpleServer) (requestId : Json)
    (response : Response) :
    (trackResponse server requestId response).totalRequests
      = server.totalRequests := by
  unfold trackResponse
  repeat' split
  all_goals rfl

theorem HandleRequest_totalPayloads (server : SimpleServer)
    (request : Request) :
    ((HandleRequest server request).1).totalPayloads
      = inc64 server.totalPayloads := by
  unfold HandleRequest
  simp [trackResponse_totalPayloads, handleRequestBody_totalPayloads]

/-- A `Success` resolution always carries a request object (the invariant
Go's `handleSingle` relies on before calling `HandleRequest`). -/
theorem newRequestResponderFromJSON_success {jsonRequest : Option Json}
    {b : Bool} {st : Option State} {request? : Option Request} {id : Json}
    {errMessage : String}
    (h : newRequestResponderFromJSON jsonRequest b st
           = (request?, id, Success, errMessage)) :
    request?.isSome = true := by
  unfold newRequestResponderFromJSON at h
  split at h
  · cases b <;> simp_all [Success, InvalidRequest, ParseError]
  · split at h
    · split at h
      · injection h with h1 hrest
        subst h1
        rfl
      · simp_all [Success, InvalidRequest]
    · simp_all [Success, InvalidRequest]

theorem handleSingle_totalPayloads (server : SimpleServer)
    (jsonRequest : Option Json) (isPartOfBatch : Bool) (state : Option State)
    (h : server.totalPayloads < UINT64MOD) :
    ((handleSingle server jsonRequest isPartOfBatch state).1).totalPayloads
      = server.totalPayloads := by
  unfold handleSingle
  rcases hres : newRequestResponderFromJSON jsonRequest isPartOfBatch state with
    ⟨request?, id, errCode, errMessage⟩
  by_cases hec : errCode = Success
  · cases request? with
    | some request =>
      simp [hec, HandleRequest_totalPayloads, inc64_dec64 h]
    | none =>
      subst hec
      have := newRequestResponderFromJSON_success hres
      simp at this
  · simp [hec]

theorem Json_isNull_null : Json.isNull Json.null = true := rfl

theorem batchStep_totalPayloads (state : Option State)
    (acc : SimpleServer × List Response) (probableRequest : Json)
    (h : acc.1.totalPayloads < UINT64MOD) :
    ((batchStep state acc probableRequest).1).totalPayloads
      = acc.1.totalPayloads := by
  unfold batchStep
  simp [handleSingle_totalPayloads _ _ _ _ h]

theorem foldl_batchStep_totalPayloads (state : Option State)
    (elems : List Json) :
    ∀ acc : SimpleServer × List Response, acc.1.totalPayloads < UINT64MOD →
    ((elems.foldl (batchStep state) acc).1).totalPayloads
      = acc.1.totalPayloads := by
  induction elems with
  | nil => intro acc h; rfl
  | cons e es ih =>
    intro acc h
    rw [List.foldl_cons]
    rw [ih _ (by rw [batchStep_totalPayloads state acc e h]; exact h)]
    exact batchStep_totalPayloads state acc e h

theorem HandleWithState_totalPayloads (server : SimpleServer)
    (jsonRequest : Option Json) (state : Option State) :
    ((HandleWithState server jsonRequest state).1).totalPayloads
      = inc64 server.totalPayloads := by
  unfold HandleWithState
  cases hd : decodeArray jsonRequest with
  | some batchRequest =>
    by_cases he : batchRequest.isEmpty
    · simp [he]
    · simp only [he, if_false, Bool.false_eq_true]
      exact foldl_batchStep_totalPayloads state batchRequest _
        (inc64_lt server.totalPayloads)
  | none =>
    simp only []
    exact handleSingle_totalPayloads _ _ _ _ (inc64_lt server.totalPayloads)

/-- Filtering an already-filtered singleton again is a no-op: used to
collapse the double `appendResponses` pass (once in `handleSingle` or
`HandleRequest`, once in `HandleWithState`'s collection loop). -/
theorem foldl_appendResponses_collapse (response : Response) :
    (appendResponses [] response).foldl appendResponses []
      = appendResponses [] response := by
  by_cases h : response.id.isNull
  · simp [appendResponses, h]
  · simp [appendResponses, h]

/-- Go `HandleRequest`'s second component is always such a filtered
singleton. -/
theorem HandleRequest_snd (server : SimpleServer) (request : Request) :
    (HandleRequest server request).2
      = appendResponses []
          (handleRequestBody
            { server with totalPayloads := inc64 server.totalPayloads }
            request).2 := by
  rfl

/-- Go `HandleRequest`'s first component, unfolded one step. -/
theorem HandleRequest_fst (server : SimpleServer) (request : Request) :
    (HandleRequest server request).1
      = trackResponse
          (handleRequestBody
            { server with totalPayloads := inc64 server.totalPayloads }
            request).1
          request.RequestId
          (handleRequestBody
            { server with totalPayloads := inc64 server.totalPayloads }
            request).2 := rfl

/-- Dispatch of a single top-level JSON-object payload whose `jsonrpc` and
`method` fields are strings: `HandleWithState` reduces to a `HandleRequest`
call on the request assembled from the object's fields (the `totalPayloads`
dance cancels: plus one at entry, minus one in `handleSingle`, plus one
again inside `HandleRequest`). -/
theorem HandleWithState_object (server : SimpleServer) (state : Option State)
    (fields : List (String × Json)) (version methodName : String)
    (hv : lookupField fields "jsonrpc" = Json.str version)
    (hm : lookupField fields "method" = Json.str methodName) :
    HandleWithState server (some (Json.obj fields)) state
      = HandleRequest
          { server with totalPayloads := dec64 (inc64 server.totalPayloads) }
          (NewRequestResponderWithState version (lookupField fields "id")
            methodName (lookupField fields "params") state) := by
  unfold HandleWithState
  simp only [decodeArray]
  unfold handleSingle newRequestResponderFromJSON
  simp only [decodeMap]
  rw [hv, hm]
  simp only [ne_eq, not_true_eq_false, if_false]
  rw [Prod.mk.injEq]
  refine ⟨rfl, ?_⟩
  rw [HandleRequest_snd]
  exact foldl_appendResponses_collapse _

/-- The two components of the single-object dispatch, with the stacked
`totalPayloads` updates flattened into one. -/
theorem HandleWithState_object_snd (server : SimpleServer)
    (state : Option State) (fields : List (String × Json))
    (version methodName : String)
    (hv : lookupField fields "jsonrpc" = Json.str version)
    (hm : lookupField fields "method" = Json.str methodName) :
    (HandleWithState server (some (Json.obj fields)) state).2
      = appendResponses []
          (handleRequestBody
            { server with
              totalPayloads := inc64 (dec64 (inc64 server.totalPayloads)) }
            (NewRequestResponderWithState version (lookupField fields "id")
              methodName (lookupField fields "params") state)).2 := by
  rw [HandleWithState_object server state fields version methodName hv hm,
    HandleRequest_snd]

theorem HandleWithState_object_fst (server : SimpleServer)
    (state : Option State) (fields : List (String × Json))
    (version methodName : String)
    (hv : lookupField fields "jsonrpc" = Json.str version)
    (hm : lookupField fields "method" = Json.str methodName) :
    (HandleWithState server (some (Json.obj fields)) state).1
      = trackResponse
          (handleRequestBody
            { server with
              totalPayloads := inc64 (dec64 (inc64 server.totalPayloads)) }
            (NewRequestResponderWithState version (lookupField fields "id")
              methodName (lookupField fields "params") state)).1
          (NewRequestResponderWithState version (lookupField fields "id")
              methodName (lookupField fields "params") state).RequestId
          (handleRequestBody
            { server with
              totalPayloads := inc64 (dec64 (inc64 server.totalPayloads)) }
            (NewRequestResponderWithState version (lookupField fields "id")
              methodName (lookupField fields "params") state)).2 := by
  rw [HandleWithState_object server state fields version methodName hv hm,
    HandleRequest_fst]

/-- Undoing the `totalPayloads` correction: with a `uint64`-valid counter
the corrected server is the original one. -/
theorem server_payload_correction (server : SimpleServer)
    (h : server.totalPayloads < UINT64MOD) :
    { server with totalPayloads := dec64 (inc64 server.totalPayloads) }
      = server := by
  rw [dec64_inc64 h]

theorem handleRequestBody_totalSuccessNotifications (server : SimpleServer)
    (request : Request) :
    ((handleRequestBody server request).1).totalSuccessNotifications
      = server.totalSuccessNotifications := by
  unfold handleRequestBody
  repeat' split
  all_goals rfl

theorem handleRequestBody_totalErrorNotifications (server : SimpleServer)
    (request : Request) :
    ((handleRequestBody server request).1).totalErrorNotifications
      = server.totalErrorNotifications := by
  unfold handleRequestBody
  repeat' split
  all_goals rfl

theorem handleRequestBody_totalSuccessResponses (server : SimpleServer)
    (request : Request) :
    ((handleRequestBody server request).1).totalSuccessResponses
      = server.totalSuccessResponses := by
  unfold handleRequestBody
  repeat' split
  all_goals rfl

theorem handleRequestBody_totalErrorResponses (server : SimpleServer)
    (request : Request) :
    ((handleRequestBody server request).1).totalErrorResponses
      = server.totalErrorResponses := by
  unfold handleRequestBody
  repeat' split
  all_goals rfl

/-- The main body on a version-"2.0" request with a registered handler
produces the handler's response, or the recovered `ServerError` response
after a panic. -/
theorem handleRequestBody_snd_registered (server : SimpleServer)
    (request : Request) (handler : RequestHandler)
    (hv : request.RequestVersion = "2.0")
    (hh : lookupHandler server.requestHandlers request.RequestMethod
            = some handler) :
    (handleRequestBody server request).2
      = match handler request with
        | HandlerResult.ok r => r
        | HandlerResult.panicked _ =>
            NewErrorResponse request.RequestId ServerError "" := by
  unfold handleRequestBody
  simp only [Request.Version, hv, ne_eq, not_true_eq_false, if_false,
    Request.Method, hh]
  rfl

/-- The main body increments `totalRequests` exactly when the handler was
found and invoked. -/
theorem handleRequestBody_totalRequests_registered (server : SimpleServer)
    (request : Request) (handler : RequestHandler)
    (hv : request.RequestVersion = "2.0")
    (hh : lookupHandler server.requestHandlers request.RequestMethod
            = some handler) :
    ((handleRequestBody server request).1).totalRequests
      = inc64 server.totalRequests := by
  unfold handleRequestBody
  simp only [Request.Version, hv, ne_eq, not_true_eq_false, if_false,
    Request.Method, hh]

/-- On a version-"2.0" request whose method is unregistered the main body
changes nothing at all (in particular `totalRequests`). -/
theorem handleRequestBody_fst_unregistered (server : SimpleServer)
    (request : Request)
    (hv : request.RequestVersion = "2.0")
    (hh : lookupHandler server.requestHandlers request.RequestMethod = none) :
    (handleRequestBody server request).1 = server := by
  unfold handleRequestBody
  simp only [Request.Version, hv, ne_eq, not_true_eq_false, if_false,
    Request.Method, hh]

theorem handleRequestBody_snd_unregistered (server : SimpleServer)
    (request : Request)
    (hv : request.RequestVersion = "2.0")
    (hh : lookupHandler server.requestHandlers request.RequestMethod = none) :
    (handleRequestBody server request).2
      = NewErrorResponse request.RequestId MethodNotFound "" := by
  unfold handleRequestBody
  simp only [Request.Version, hv, ne_eq, not_true_eq_false, if_false,
    Request.Method, hh]
  rfl

-- The four branches of the deferred tracking.

theorem trackResponse_notification_success (server : SimpleServer)
    (requestId : Json) (response : Response)
    (h1 : requestId.isNull = true) (h2 : response.ErrorCode = Success) :
    trackResponse server requestId response
      = { server with
          totalSuccessNotifications := inc64 server.totalSuccessNotifications } := by
  unfold trackResponse
  simp [h1, h2]

theorem trackResponse_notification_error (server : SimpleServer)
    (requestId : Json) (response : Response)
    (h1 : requestId.isNull = true) (h2 : response.ErrorCode ≠ Success) :
    trackResponse server requestId response
      = { server with
          totalErrorNotifications := inc64 server.totalErrorNotifications } := by
  unfold trackResponse
  simp [h1, h2]

theorem trackResponse_response_success (server : SimpleServer)
    (requestId : Json) (response : Response)
    (h1 : requestId.isNull = false) (h2 : response.ErrorCode = Success) :
    trackResponse server requestId response
      = { server with
          totalSuccessResponses := inc64 server.totalSuccessResponses } := by
  unfold trackResponse
  simp [h1, h2]

theorem trackResponse_response_error (server : SimpleServer)
    (requestId : Json) (response : Response)
    (h1 : requestId.isNull = false) (h2 : response.ErrorCode ≠ Success) :
    trackResponse server requestId response
      = { server with
          totalErrorResponses := inc64 server.totalErrorResponses } := by
  unfold trackResponse
  simp [h1, h2]

/-- A key that no entry of the bag carries looks up to the nil interface. -/
theorem lookupField_absent (bag : List (String × Json)) (key : String)
    (h : ∀ p ∈ bag, p.1 ≠ key) : lookupField bag key = Json.null := by
  unfold lookupField
  induction bag with
  | nil => rfl
  | cons p ps ih =>
    rw [List.foldl_cons, if_neg (h p (by simp))]
    exact ih (fun q hq => h q (by simp [hq]))

/-- The request assembled by a successful resolution carries exactly the
state bag that was passed in. -/
theorem newRequestResponderFromJSON_state {jsonRequest : Option Json}
    {b : Bool} {st : Option State} {r : Request} {id : Json} {errCode : Int}
    {errMessage : String}
    (h : newRequestResponderFromJSON jsonRequest b st
           = (some r, id, errCode, errMessage)) :
    r.requestState = st := by
  unfold newRequestResponderFromJSON at h
  split at h
  · simp_all
  · split at h
    · split at h
      · injection h with h1 hrest
        injection h1 with h1
        rw [← h1]
        rfl
      · simp_all
    · simp_all

-- Claim theorems.

/-- C1 (code bug, failing input `[1,2,3]`): the claim — backed by the
spec and by the repository's own `specTests` expectations — says the three
structural `InvalidRequest` errors with null id are returned.  The code
instead returns zero responses: `appendResponses` drops every response
whose id is nil, including structural errors raised before a `Request`
object could be built.  The three failures are still counted in
`totalErrorResponses`, and the whole batch counts as one payload. -/
theorem c1_batch_of_numbers_suppressed :
    (Handle NewSimpleServer
        (some (Json.arr [Json.num 1, Json.num 2, Json.num 3]))).2 = [] ∧
    ((Handle NewSimpleServer
        (some (Json.arr [Json.num 1, Json.num 2, Json.num 3]))).1).totalErrorResponses
      = 3 ∧
    ((Handle NewSimpleServer
        (some (Json.arr [Json.num 1, Json.num 2, Json.num 3]))).1).totalPayloads
      = 1 :=
  ⟨rfl, rfl, rfl⟩

/-- C6 (confirmed): an empty JSON-array payload yields exactly one
response — error code `InvalidRequest`, message "Batch is empty.", null
id — and the call adds one to `totalErrorResponses` and one to
`totalPayloads`. -/
theorem c6_empty_batch (server : SimpleServer) (state : Option State)
    (hE : server.totalErrorResponses + 1 < UINT64MOD)
    (hP : server.totalPayloads + 1 < UINT64MOD) :
    (HandleWithState server (some (Json.arr [])) state).2
      = [NewErrorResponse Json.null InvalidRequest "Batch is empty."] ∧
    ((HandleWithState server (some (Json.arr [])) state).1).totalErrorResponses
      = server.totalErrorResponses + 1 ∧
    ((HandleWithState server (some (Json.arr [])) state).1).totalPayloads
      = server.totalPayloads + 1 ∧
    (NewErrorResponse Json.null InvalidRequest "Batch is empty.").id
      = Json.null ∧
    (NewErrorResponse Json.null InvalidRequest "Batch is empty.").ErrorCode
      = InvalidRequest ∧
    (NewErrorResponse Json.null InvalidRequest "Batch is empty.").ErrorMessage
      = "Batch is empty." := by
  refine ⟨rfl, ?_, ?_, rfl, rfl, rfl⟩
  · show inc64 server.totalErrorResponses = _
    exact inc64_eq hE
  · show inc64 server.totalPayloads = _
    exact inc64_eq hP

/-- Witness for C6 at a concrete server. -/
theorem c6_empty_batch_witness :
    NewSimpleServer.totalErrorResponses + 1 < UINT64MOD ∧
    NewSimpleServer.totalPayloads + 1 < UINT64MOD ∧
    ((HandleWithState NewSimpleServer (some (Json.arr [])) (some [])).2
      = [NewErrorResponse Json.null InvalidRequest "Batch is empty."] ∧
     ((HandleWithState NewSimpleServer (some (Json.arr [])) (some [])).1).totalErrorResponses
      = NewSimpleServer.totalErrorResponses + 1) := by
  have h1 : NewSimpleServer.totalErrorResponses + 1 < UINT64MOD := by decide
  have h2 : NewSimpleServer.totalPayloads + 1 < UINT64MOD := by decide
  have h := c6_empty_batch NewSimpleServer (some []) h1 h2
  exact ⟨h1, h2, h.1, h.2.1⟩

/-- C7 (confirmed): a payload that fails to decode as a JSON object
resolves to `ParseError` as a lone top-level payload and to
`InvalidRequest` as a batch element, with the taxonomy's message for that
code in both cases. -/
theorem c7_decode_failure_codes (jsonRequest : Option Json) (b : Bool)
    (st : Option State) (h : decodeMap jsonRequest = none) :
    newRequestResponderFromJSON jsonRequest b st
      = (none, Json.null, if b = true then InvalidRequest else ParseError,
         ErrorMessageForCode (if b = true then InvalidRequest else ParseError)) ∧
    ErrorMessageForCode ParseError = "Parse error" ∧
    ErrorMessageForCode InvalidRequest = "Invalid request" := by
  refine ⟨?_, rfl, rfl⟩
  unfold newRequestResponderFromJSON
  rw [h]

/-- Witness for C7: the lone top-level payload `none` (invalid JSON
bytes). -/
theorem c7_decode_failure_codes_witness :
    decodeMap none = none ∧
    newRequestResponderFromJSON none false none
      = (none, Json.null, ParseError, ErrorMessageForCode ParseError) :=
  ⟨rfl, (c7_decode_failure_codes none false none rfl).1⟩

/-- C8 counterexample: `NewErrorResponse` accepts the `Success`
sentinel itself as a code, producing a response whose error member is set
while `ErrorCode()` still reports `Success` — refuting "ErrorCode returns
Success exactly when no error is set" for arbitrary codes. -/
theorem c8_counterexample :
    ((NewErrorResponse Json.null Success "boom").error).isSome = true ∧
    (NewErrorResponse Json.null Success "boom").ErrorCode = Success :=
  ⟨rfl, rfl⟩

/-- C8 (amended): every constructed response carries version "2.0" and
never both a result and an error; `ErrorCode` is `Success` exactly when no
error is set, provided error responses are built with a nonzero code
(`NewServerErrorResponse` always uses `ServerError ≠ 0`). -/
theorem c8_amended (id result : Json) (code : Int)
    (message errMessage : String) :
    (NewSuccessResponse id result).version = "2.0" ∧
    (NewSuccessResponse id result).error = none ∧
    (NewSuccessResponse id result).ErrorCode = Success ∧
    (NewErrorResponse id code message).version = "2.0" ∧
    (NewErrorResponse id code message).result = Json.null ∧
    ((NewErrorResponse id code message).error).isSome = true ∧
    (NewErrorResponse id code message).ErrorCode = code ∧
    (code ≠ Success → (NewErrorResponse id code message).ErrorCode ≠ Success) ∧
    (NewServerErrorResponse id errMessage).version = "2.0" ∧
    (NewServerErrorResponse id errMessage).result = Json.null ∧
    (NewServerErrorResponse id errMessage).ErrorCode = ServerError ∧
    ServerError ≠ Success :=
  ⟨rfl, rfl, rfl, rfl, rfl, rfl, rfl, fun hc => hc, rfl, rfl, rfl, by decide⟩

/-- Witness for C8's amended theorem at concrete arguments, discharging
the nonzero-code hypothesis with `InternalError`. -/
theorem c8_amended_witness :
    InternalError ≠ Success ∧
    (NewErrorResponse (Json.num 7) InternalError "oops").ErrorCode ≠ Success :=
  ⟨by decide,
   (c8_amended (Json.num 7) Json.null InternalError "oops" "e").2.2.2.2.2.2.2.1
     (by decide)⟩

/-- C9 (confirmed): a single call to `Handle`, `HandleWithState` or
`HandleRequest` increments `totalPayloads` by exactly one, whatever the
payload (a batch counts as one payload). -/
theorem c9_totalPayloads_increment (server : SimpleServer)
    (jsonRequest : Option Json) (state : Option State) (request : Request)
    (h : server.totalPayloads + 1 < UINT64MOD) :
    ((Handle server jsonRequest).1).totalPayloads
      = server.totalPayloads + 1 ∧
    ((HandleWithState server jsonRequest state).1).totalPayloads
      = server.totalPayloads + 1 ∧
    ((HandleRequest server request).1).totalPayloads
      = server.totalPayloads + 1 := by
  refine ⟨?_, ?_, ?_⟩
  · unfold Handle
    rw [HandleWithState_totalPayloads, inc64_eq h]
  · rw [HandleWithState_totalPayloads, inc64_eq h]
  · rw [HandleRequest_totalPayloads, inc64_eq h]

/-- Witness for C9 at a concrete server, on a three-element batch payload
(one payload, not three). -/
theorem c9_totalPayloads_increment_witness :
    witnessServer.totalPayloads + 1 < UINT64MOD ∧
    ((Handle witnessServer
        (some (Json.arr [Json.num 1, Json.num 2, Json.num 3]))).1).totalPayloads
      = witnessServer.totalPayloads + 1 := by
  have h : witnessServer.totalPayloads + 1 < UINT64MOD := by decide
  exact ⟨h, (c9_totalPayloads_increment witnessServer
    (some (Json.arr [Json.num 1, Json.num 2, Json.num 3])) (some [])
    (NewRequestResponder "2.0" (Json.num 1) "subtract" Json.null) h).1⟩

/-- C10 (confirmed): `Request.State` is total and yields the nil value
both when the key is absent from the bag and when the bag itself is nil,
as it is for every request built by `NewRequestFromJSON`. -/
theorem c10_state_accessor_total (key : String) (payload : Option Json) :
    (∀ request : Request, request.requestState = none →
        Request.State request key = Json.null) ∧
    (∀ (request : Request) (bag : State), request.requestState = some bag →
        (∀ p ∈ bag, p.1 ≠ key) → Request.State request key = Json.null) ∧
    (∀ r : Request, (NewRequestFromJSON payload).1 = some r →
        Request.State r key = Json.null) := by
  refine ⟨?_, ?_, ?_⟩
  · intro request h
    unfold Request.State
    rw [h]
  · intro request bag h habs
    unfold Request.State
    rw [h]
    exact lookupField_absent bag key habs
  · intro r h
    unfold NewRequestFromJSON at h
    rcases hres : newRequestResponderFromJSON payload false none with
      ⟨r?, id, ec, em⟩
    rw [hres] at h
    by_cases hm : em = ""
    · simp only [hm, ne_eq, not_true_eq_false, if_false] at h
      rw [h] at hres
      have hst := newRequestResponderFromJSON_state hres
      unfold Request.State
      rw [hst]
    · simp [hm] at h

/-- Witness for C10: a request with a nil bag, a request missing the key,
and a request decoded from JSON. -/
theorem c10_state_accessor_total_witness :
    (NewRequestResponderWithState "2.0" (Json.num 1) "m" Json.null
        none).requestState = none ∧
    Request.State
      (NewRequestResponderWithState "2.0" (Json.num 1) "m" Json.null none)
      "offset" = Json.null ∧
    (NewRequestFromJSON (some (Json.obj subtractCall))).1.isSome = true ∧
    (∀ r : Request,
       (NewRequestFromJSON (some (Json.obj subtractCall))).1 = some r →
       Request.State r "offset" = Json.null) := by
  refine ⟨rfl, ?_, rfl, ?_⟩
  · exact (c10_state_accessor_total "offset" none).1
      (NewRequestResponderWithState "2.0" (Json.num 1) "m" Json.null none) rfl
  · exact (c10_state_accessor_total "offset" (some (Json.obj subtractCall))).2.2

/-- C2 (confirmed): a valid non-batch, non-notification request —
version "2.0", registered method, non-null id — produces exactly one
response from `Handle`, and its id is the request's id.  The handler is
assumed to answer through the request's Responder capability (so a normal
return carries the request's id); a panicking handler is covered too,
since the recovered `ServerError` response also carries the request's
id. -/
theorem c2_valid_request_single_response (server : SimpleServer)
    (fields : List (String × Json)) (methodName : String)
    (handler : RequestHandler) (i : Json)
    (hv : lookupField fields "jsonrpc" = Json.str "2.0")
    (hm : lookupField fields "method" = Json.str methodName)
    (hi : lookupField fields "id" = i)
    (hnn : i.isNull = false)
    (hh : GetHandler server methodName = some handler)
    (hd : ∀ resp, handler (NewRequestResponderWithState "2.0" i methodName
            (lookupField fields "params") (some []))
              = HandlerResult.ok resp → resp.id = i) :
    ∃ resp, (Handle server (some (Json.obj fields))).2 = [resp]
      ∧ resp.id = i := by
  unfold Handle
  rw [HandleWithState_object_snd server (some []) fields "2.0" methodName hv hm,
    hi]
  have hh' : lookupHandler
      ({ server with
         totalPayloads := inc64 (dec64 (inc64 server.totalPayloads)) }).requestHandlers
      (NewRequestResponderWithState "2.0" i methodName
        (lookupField fields "params") (some [])).RequestMethod
      = some handler := hh
  rw [handleRequestBody_snd_registered _ _ handler rfl hh']
  cases hr : handler (NewRequestResponderWithState "2.0" i methodName
      (lookupField fields "params") (some [])) with
  | ok resp =>
    have hid := hd resp hr
    refine ⟨resp, ?_, hid⟩
    unfold appendResponses
    simp [hid, hnn]
  | panicked p =>
    refine ⟨NewErrorResponse i ServerError "", ?_, rfl⟩
    unfold appendResponses
    simp [NewRequestResponderWithState, NewErrorResponse, hnn]

/-- Witness for C2: the spec's `subtract` scenario against the concrete
server. -/
theorem c2_valid_request_single_response_witness :
    lookupField subtractCall "jsonrpc" = Json.str "2.0" ∧
    lookupField subtractCall "method" = Json.str "subtract" ∧
    lookupField subtractCall "id" = Json.num 1 ∧
    (Json.num 1).isNull = false ∧
    GetHandler witnessServer "subtract" = some subtractHandler ∧
    (∃ resp, (Handle witnessServer (some (Json.obj subtractCall))).2 = [resp]
      ∧ resp.id = Json.num 1) := by
  refine ⟨rfl, rfl, rfl, rfl, rfl, ?_⟩
  exact c2_valid_request_single_response witnessServer subtractCall
    "subtract" subtractHandler (Json.num 1) rfl rfl rfl rfl rfl
    (fun resp h => by cases h; rfl)

/-- C3 (confirmed): a notification (absent or null id) whose handler
runs to completion yields zero responses from `Handle` — even when the
handler answered with an error — while exactly the matching notification
counter increments by one and `totalPayloads`/`totalRequests` each
increment by one.  The handler is assumed to answer through the Responder
capability, so its response carries the request's null id. -/
theorem c3_notification_never_surfaced (server : SimpleServer)
    (fields : List (String × Json)) (methodName : String)
    (handler : RequestHandler) (r : Response)
    (hv : lookupField fields "jsonrpc" = Json.str "2.0")
    (hm : lookupField fields "method" = Json.str methodName)
    (hi : lookupField fields "id" = Json.null)
    (hh : GetHandler server methodName = some handler)
    (hr : handler (NewRequestResponderWithState "2.0" Json.null methodName
            (lookupField fields "params") (some [])) = HandlerResult.ok r)
    (hrid : r.id.isNull = true)
    (hP : server.totalPayloads + 1 < UINT64MOD)
    (hR : server.totalRequests + 1 < UINT64MOD)
    (hSN : server.totalSuccessNotifications + 1 < UINT64MOD)
    (hEN : server.totalErrorNotifications + 1 < UINT64MOD) :
    (Handle server (some (Json.obj fields))).2 = [] ∧
    ((Handle server (some (Json.obj fields))).1).totalPayloads
      = server.totalPayloads + 1 ∧
    ((Handle server (some (Json.obj fields))).1).totalRequests
      = server.totalRequests + 1 ∧
    (if r.ErrorCode = Success then
       ((Handle server (some (Json.obj fields))).1).totalSuccessNotifications
           = server.totalSuccessNotifications + 1 ∧
       ((Handle server (some (Json.obj fields))).1).totalErrorNotifications
           = server.totalErrorNotifications
     else
       ((Handle server (some (Json.obj fields))).1).totalErrorNotifications
           = server.totalErrorNotifications + 1 ∧
       ((Handle server (some (Json.obj fields))).1).totalSuccessNotifications
           = server.totalSuccessNotifications) := by
  have hh' : lookupHandler
      ({ server with
         totalPayloads := inc64 (dec64 (inc64 server.totalPayloads)) }).requestHandlers
      (NewRequestResponderWithState "2.0" Json.null methodName
        (lookupField fields "params") (some [])).RequestMethod
      = some handler := hh
  have hsnd : (handleRequestBody
      { server with
        totalPayloads := inc64 (dec64 (inc64 server.totalPayloads)) }
      (NewRequestResponderWithState "2.0" Json.null methodName
        (lookupField fields "params") (some []))).2 = r := by
    rw [handleRequestBody_snd_registered _ _ handler rfl hh', hr]
  have hid0 : (NewRequestResponderWithState "2.0" Json.null methodName
      (lookupField fields "params") (some [])).RequestId.isNull = true := rfl
  refine ⟨?_, ?_, ?_, ?_⟩
  · unfold Handle
    rw [HandleWithState_object_snd server (some []) fields "2.0" methodName
      hv hm, hi, hsnd]
    unfold appendResponses
    simp [hrid]
  · unfold Handle
    rw [HandleWithState_totalPayloads]
    exact inc64_eq hP
  · unfold Handle
    rw [HandleWithState_object_fst server (some []) fields "2.0" methodName
      hv hm, hi, trackResponse_totalRequests,
      handleRequestBody_totalRequests_registered _ _ handler rfl hh']
    show inc64 server.totalRequests = _
    exact inc64_eq hR
  · by_cases hec : r.ErrorCode = Success
    · rw [if_pos hec]
      unfold Handle
      rw [HandleWithState_object_fst server (some []) fields "2.0" methodName
        hv hm, hi, hsnd, trackResponse_notification_success _ _ _ hid0 hec]
      constructor
      · show inc64 ((handleRequestBody _ _).1).totalSuccessNotifications = _
        rw [handleRequestBody_totalSuccessNotifications]
        show inc64 server.totalSuccessNotifications = _
        exact inc64_eq hSN
      · show ((handleRequestBody _ _).1).totalErrorNotifications = _
        rw [handleRequestBody_totalErrorNotifications]
    · rw [if_neg hec]
      unfold Handle
      rw [HandleWithState_object_fst server (some []) fields "2.0" methodName
        hv hm, hi, hsnd, trackResponse_notification_error _ _ _ hid0 hec]
      constructor
      · show inc64 ((handleRequestBody _ _).1).totalErrorNotifications = _
        rw [handleRequestBody_totalErrorNotifications]
        show inc64 server.totalErrorNotifications = _
        exact inc64_eq hEN
      · show ((handleRequestBody _ _).1).totalSuccessNotifications = _
        rw [handleRequestBody_totalSuccessNotifications]

/-- Witness for C3: the `failing` notification against the concrete
server — the handler reports an `InternalError`, which is recorded as an
error notification and still not surfaced. -/
theorem c3_notification_never_surfaced_witness :
    failingHandler (NewRequestResponderWithState "2.0" Json.null "failing"
        (lookupField failingNotification "params") (some []))
      = HandlerResult.ok
          (NewErrorResponse Json.null InternalError "boom") ∧
    (Handle witnessServer (some (Json.obj failingNotification))).2 = [] ∧
    ((Handle witnessServer (some (Json.obj failingNotification))).1).totalErrorNotifications
      = witnessServer.totalErrorNotifications + 1 := by
  have h := c3_notification_never_surfaced witnessServer failingNotification
    "failing" failingHandler (NewErrorResponse Json.null InternalError "boom")
    rfl rfl rfl rfl rfl rfl
    (by decide)
    (by decide)
    (by decide)
    (by decide)
  have hec : (NewErrorResponse Json.null InternalError "boom").ErrorCode
      ≠ Success := by decide
  refine ⟨rfl, h.1, ?_⟩
  have h4 := h.2.2.2
  rw [if_neg hec] at h4
  exact h4.1

/-- C4 counterexample: a panicking handler invoked for a notification
(null id).  The panic is recovered into a `ServerError` response, but that
response is suppressed, so `HandleRequest` returns zero responses — refuting
"returns a well-formed response" for every panicking request.  The fault is
still recorded as an error notification. -/
theorem c4_counterexample :
    panickingHandler (NewRequestResponderWithState "2.0" Json.null "panic"
        Json.null (some [])) = HandlerResult.panicked "uh-oh!" ∧
    (HandleRequest witnessServer (NewRequestResponderWithState "2.0"
        Json.null "panic" Json.null (some []))).2 = [] ∧
    ((HandleRequest witnessServer (NewRequestResponderWithState "2.0"
        Json.null "panic" Json.null (some []))).1).totalErrorNotifications
      = witnessServer.totalErrorNotifications + 1 :=
  ⟨rfl, rfl, rfl⟩

/-- C4 (amended): a handler panic is always recovered into the
`ServerError` response with the taxonomy's default message "Server error" —
never the panic's payload, which is discarded — and `HandleRequest` returns
that response exactly when the request id is non-null; for a notification it
is suppressed from the returned collection.  No fault propagates (the
function always returns). -/
theorem c4_amended (server : SimpleServer) (request : Request)
    (handler : RequestHandler) (payload : String)
    (hv : request.RequestVersion = "2.0")
    (hh : lookupHandler server.requestHandlers request.RequestMethod
            = some handler)
    (hp : handler request = HandlerResult.panicked payload) :
    (HandleRequest server request).2
      = (if request.RequestId.isNull = true then []
         else [NewErrorResponse request.RequestId ServerError ""]) ∧
    (NewErrorResponse request.RequestId ServerError "").ErrorCode
      = ServerError ∧
    (NewErrorResponse request.RequestId ServerError "").ErrorMessage
      = "Server error" := by
  refine ⟨?_, rfl, rfl⟩
  rw [HandleRequest_snd]
  have hh' : lookupHandler ({ server with
      totalPayloads := inc64 server.totalPayloads }).requestHandlers
      request.RequestMethod = some handler := hh
  rw [handleRequestBody_snd_registered _ _ handler hv hh', hp]
  unfold appendResponses
  by_cases h : request.RequestId.isNull = true
  · simp [NewErrorResponse, h]
  · simp [NewErrorResponse, h]

/-- Witness for C4's amended theorem: the test suite's "recover from
panic" scenario, id 2. -/
theorem c4_amended_witness :
    panickingHandler (NewRequestResponderWithState "2.0" (Json.num 2) "panic"
        Json.null (some [])) = HandlerResult.panicked "uh-oh!" ∧
    (HandleRequest witnessServer (NewRequestResponderWithState "2.0"
        (Json.num 2) "panic" Json.null (some []))).2
      = [NewErrorResponse (Json.num 2) ServerError ""] := by
  refine ⟨rfl, ?_⟩
  have h := c4_amended witnessServer (NewRequestResponderWithState "2.0"
      (Json.num 2) "panic" Json.null (some [])) panickingHandler "uh-oh!"
      rfl rfl rfl
  rw [h.1]
  rfl

/-- C5 counterexample: an unknown method on a notification (null id).
`totalErrorResponses` is NOT incremented — the failure is recorded in the
error-notification counter, and no response is returned — refuting the
claim's "recorded in the error-response counter" for every request. -/
theorem c5_counterexample :
    GetHandler NewSimpleServer "foobar" = none ∧
    (HandleRequest NewSimpleServer (NewRequestResponderWithState "2.0"
        Json.null "foobar" Json.null (some []))).2 = [] ∧
    ((HandleRequest NewSimpleServer (NewRequestResponderWithState "2.0"
        Json.null "foobar" Json.null (some []))).1).totalErrorResponses
      = NewSimpleServer.totalErrorResponses ∧
    ((HandleRequest NewSimpleServer (NewRequestResponderWithState "2.0"
        Json.null "foobar" Json.null (some []))).1).totalErrorNotifications
      = NewSimpleServer.totalErrorNotifications + 1 :=
  ⟨rfl, rfl, rfl, rfl⟩

/-- C5 (amended): a version-"2.0" request whose method has no
registered handler never increments `totalRequests`; the `MethodNotFound`
response (default message "Method not found") is returned and counted in
`totalErrorResponses` when the id is non-null, and suppressed and counted
in `totalErrorNotifications` for a notification. -/
theorem c5_amended (server : SimpleServer) (request : Request)
    (hv : request.RequestVersion = "2.0")
    (hh : lookupHandler server.requestHandlers request.RequestMethod = none)
    (hER : server.totalErrorResponses + 1 < UINT64MOD)
    (hEN : server.totalErrorNotifications + 1 < UINT64MOD) :
    ((HandleRequest server request).1).totalRequests = server.totalRequests ∧
    (if request.RequestId.isNull = true then
       (HandleRequest server request).2 = [] ∧
       ((HandleRequest server request).1).totalErrorNotifications
         = server.totalErrorNotifications + 1
     else
       (HandleRequest server request).2
         = [NewErrorResponse request.RequestId MethodNotFound ""] ∧
       ((HandleRequest server request).1).totalErrorResponses
         = server.totalErrorResponses + 1) ∧
    (NewErrorResponse request.RequestId MethodNotFound "").ErrorCode
      = MethodNotFound ∧
    (NewErrorResponse request.RequestId MethodNotFound "").ErrorMessage
      = "Method not found" := by
  have hh' : lookupHandler ({ server with
      totalPayloads := inc64 server.totalPayloads }).requestHandlers
      request.RequestMethod = none := hh
  have hec : (NewErrorResponse request.RequestId MethodNotFound "").ErrorCode
      ≠ Success := by
    norm_num [NewErrorResponse, Response.ErrorCode, MethodNotFound, Success]
  refine ⟨?_, ?_, rfl, rfl⟩
  · rw [HandleRequest_fst, trackResponse_totalRequests,
      handleRequestBody_fst_unregistered _ _ hv hh']
  · by_cases h : request.RequestId.isNull = true
    · rw [if_pos h]
      constructor
      · rw [HandleRequest_snd, handleRequestBody_snd_unregistered _ _ hv hh']
        unfold appendResponses
        simp [NewErrorResponse, h]
      · rw [HandleRequest_fst, handleRequestBody_fst_unregistered _ _ hv hh',
          handleRequestBody_snd_unregistered _ _ hv hh',
          trackResponse_notification_error _ _ _ h hec]
        show inc64 server.totalErrorNotifications = _
        exact inc64_eq hEN
    · rw [if_neg h, Bool.not_eq_true] at *
      constructor
      · rw [HandleRequest_snd, handleRequestBody_snd_unregistered _ _ hv hh']
        unfold appendResponses
        simp [NewErrorResponse, h]
      · rw [HandleRequest_fst, handleRequestBody_fst_unregistered _ _ hv hh',
          handleRequestBody_snd_unregistered _ _ hv hh',
          trackResponse_response_error _ _ _ h hec]
        show inc64 server.totalErrorResponses = _
        exact inc64_eq hER

/-- Witness for C5's amended theorem: the spec's `foobar` scenario with
id 1. -/
theorem c5_amended_witness :
    GetHandler NewSimpleServer "foobar" = none ∧
    (HandleRequest NewSimpleServer (NewRequestResponderWithState "2.0"
        (Json.num 1) "foobar" Json.null (some []))).2
      = [NewErrorResponse (Json.num 1) MethodNotFound ""] ∧
    ((HandleRequest NewSimpleServer (NewRequestResponderWithState "2.0"
        (Json.num 1) "foobar" Json.null (some []))).1).totalRequests
      = NewSimpleServer.totalRequests := by
  have h := c5_amended NewSimpleServer (NewRequestResponderWithState "2.0"
      (Json.num 1) "foobar" Json.null (some [])) rfl rfl
      (by decide)
      (by decide)
  refine ⟨rfl, ?_, h.1⟩
  have h2 := h.2.1
  rw [if_neg (by decide)] at h2
  exact h2.1

end Jsonrpc
